import Mathlib

/-!
Shallow embedding of the PTY abstraction layer and session bridging engine
of the rs_terminal service, together with theorems settling the claims
about it. Definitions mirror the Rust source in
src/rs_terminal/src/pty/{pty_trait,memory_pty,unix_pty_impl,mod}.rs and
src/rs_terminal/src/service/session_handler.rs.
-/

/-- Error kinds of std::io::Error relevant to the PTY layer. -/
inductive IoErrorKind
  | brokenPipe
  | wouldBlock
  | other
deriving DecidableEq, Repr

/-- Model of std::io::Error: a kind plus a message. -/
structure IoError where
  kind : IoErrorKind
  msg : String
deriving DecidableEq, Repr

/-- Model of std::process::ExitStatus as a raw code; default() is code 0. -/
structure ExitStatus where
  code : Int
deriving DecidableEq, Repr

/-- ExitStatus::default() used by MemoryPty::try_wait. -/
def ExitStatus.default : ExitStatus := ⟨0⟩

/-- Error taxonomy from pty_trait.rs (enum PtyError). -/
inductive PtyError
  | io (e : IoError)
  | spawnFailed (msg : String)
  | notAvailable
  | processTerminated
  | resizeFailed (msg : String)
deriving DecidableEq, Repr

/-- PtyConfig from pty_trait.rs: command, args, size, env, cwd
(PathBuf modelled as String). -/
structure PtyConfig where
  command : String
  args : List String
  cols : Nat
  rows : Nat
  env : List (String × String)
  cwd : Option String
deriving DecidableEq, Repr

/-- Split a character list at newline characters (kernel-reducible helper
for modelling Rust str::lines). -/
def splitAtNewlines (l : List Char) : List (List Char) :=
  match l with
  | [] => [[]]
  | c :: cs =>
    if c = '\n' then [] :: splitAtNewlines cs
    else match splitAtNewlines cs with
      | [] => [[c]]
      | p :: ps => (c :: p) :: ps

/-- Character-list whitespace trim, modelling Rust str::trim. -/
def charTrim (l : List Char) : List Char :=
  ((l.dropWhile Char.isWhitespace).reverse.dropWhile Char.isWhitespace).reverse

/-- String trim via charTrim (Rust str::trim on the inputs used here). -/
def strTrim (s : String) : String := ⟨charTrim s.data⟩

/-- Rust str::lines: split on newline characters, the final line ending
optional, and a single trailing carriage return stripped from each line. -/
def rustLines (s : String) : List String :=
  let parts := splitAtNewlines s.data
  let parts := if parts.getLast? = some [] then parts.dropLast else parts
  parts.map (fun l => if l.getLast? = some '\x0d' then ⟨l.dropLast⟩ else (⟨l⟩ : String))

/-- Whether a character list starts with the four characters of "echo". -/
def echoAtFront : List Char → Bool
  | 'e' :: 'c' :: 'h' :: 'o' :: _ => true
  | _ => false

/-- Fuelled loop for stripLeadingEcho. -/
def stripLeadingEchoGo : Nat → List Char → List Char
  | 0, l => l
  | n + 1, l => if echoAtFront l then stripLeadingEchoGo n (l.drop 4) else l

/-- Rust str::trim_start_matches("echo"): repeatedly removes the leading
pattern "echo" while present (fuelled by the string length). -/
def stripLeadingEcho (s : String) : String :=
  ⟨stripLeadingEchoGo s.data.length s.data⟩

/-- MemoryPty state from memory_pty.rs: output buffer (bytes as String),
liveness flag, command, cwd. -/
structure MemoryPty where
  output_buffer : String
  alive : Bool
  command : String
  cwd : Option String
deriving DecidableEq, Repr

/-- MemoryPty::new: seeds the output buffer with the welcome line and sets
the liveness flag. -/
def MemoryPty.new (config : PtyConfig) : MemoryPty :=
  { output_buffer := "Memory PTY initialized for command: " ++ config.command ++ "\r\n"
    alive := true
    command := config.command
    cwd := config.cwd }

/-- One arm of the match in MemoryPty::process_input: response fragment for
one input line, plus whether this line was the "exit" command (which sets
the liveness flag to false). The "cd " pattern carries its trailing space
exactly as in the source. -/
def processLineResp (cwd : Option String) (line : String) : String × Bool :=
  let trimmed := strTrim line
  if trimmed = "ls" ∨ trimmed = "dir" then
    ("Memory PTY Directory Contents:\r\n  README.md\r\n  Cargo.toml\r\n  src/\r\n", false)
  else if trimmed = "pwd" ∨ trimmed = "cd " then
    (match cwd with
      | some c => c ++ "\r\n"
      | none => "/\r\n", false)
  else if trimmed = "echo" then
    (strTrim (stripLeadingEcho line) ++ "\r\n", false)
  else if trimmed = "exit" then
    ("Exiting Memory PTY...\r\n", true)
  else if trimmed = "help" then
    ("Memory PTY Commands:\r\n  ls/dir - List directory contents\r\n  pwd/cd - Show current directory\r\n  echo - Echo text\r\n  exit - Exit PTY\r\n  help - Show this help\r\n", false)
  else if trimmed ≠ "" then
    ("Command not found: " ++ trimmed ++ "\r\n", false)
  else
    ("", false)

/-- Loop body of MemoryPty::process_input over the input lines: concatenated
response and whether an "exit" line was processed. -/
def processLines (cwd : Option String) : List String → String × Bool
  | [] => ("", false)
  | l :: ls =>
    let r := processLineResp cwd l
    let rest := processLines cwd ls
    (r.1 ++ rest.1, r.2 || rest.2)

/-- MemoryPty::process_input on a UTF-8 input (from_utf8_lossy modelled as
identity on valid UTF-8 input): the synthesized response together with the
effect on the liveness flag ("exit" sets it to false). -/
def MemoryPty.process_input (p : MemoryPty) (input : String) : String × Bool :=
  processLines p.cwd (rustLines input)

/-- Effect of the task spawned by MemoryPty::poll_write: runs process_input
and appends the response to the output buffer; an "exit" line clears the
liveness flag. -/
def MemoryPty.runSpawnedTask (p : MemoryPty) (input : String) : MemoryPty :=
  let r := p.process_input input
  { p with output_buffer := p.output_buffer ++ r.1, alive := p.alive && !r.2 }

/-- MemoryPty poll_write: fails with BrokenPipe when the liveness flag is
false, otherwise reports the full length written (the response is produced
later by the spawned task, see runSpawnedTask). -/
def MemoryPty.poll_write (p : MemoryPty) (data : String) : Except IoError Nat :=
  if !p.alive then .error ⟨IoErrorKind.brokenPipe, "PTY is not alive"⟩
  else .ok data.utf8ByteSize

/-- MemoryPty::resize: a no-op that always succeeds. -/
def MemoryPty.resize (p : MemoryPty) (_cols _rows : Nat) : MemoryPty × Except PtyError Unit :=
  (p, .ok ())

/-- MemoryPty::is_alive: snapshot of the liveness flag. -/
def MemoryPty.is_alive (p : MemoryPty) : Bool := p.alive

/-- MemoryPty::try_wait: reports a default exit status whenever the liveness
flag is false, and no status otherwise; the state is unchanged. -/
def MemoryPty.try_wait (p : MemoryPty) : MemoryPty × Except PtyError (Option ExitStatus) :=
  if !p.alive then (p, .ok (some ExitStatus.default)) else (p, .ok none)

/-- MemoryPty::kill: clears the liveness flag and always succeeds. -/
def MemoryPty.kill (p : MemoryPty) : MemoryPty × Except PtyError Unit :=
  ({ p with alive := false }, .ok ())


/-- Decidable equality for Except values (not derived in core). -/
instance {ε α : Type} [DecidableEq ε] [DecidableEq α] : DecidableEq (Except ε α) := fun a b =>
  match a, b with
  | .error e, .error f =>
    if h : e = f then .isTrue (congrArg Except.error h)
    else .isFalse (fun hh => h (Except.error.inj hh))
  | .ok x, .ok y =>
    if h : x = y then .isTrue (congrArg Except.ok h)
    else .isFalse (fun hh => h (Except.ok.inj hh))
  | .error _, .ok _ => .isFalse (fun hh => Except.noConfusion hh)
  | .ok _, .error _ => .isFalse (fun hh => Except.noConfusion hh)

/-- Result of one attempted read on the PTY master file descriptor (the OS
side of UnixPty::poll_read, supplied as an oracle). -/
inductive FdReadResult
  | data (n : Nat)
  | eof
  | pendingFd
  | ioErr (e : IoError)
deriving DecidableEq, Repr

/-- Poll result, modelling std::task::Poll. -/
inductive PollResult (α : Type)
  | ready (a : α)
  | pending
deriving DecidableEq, Repr

/-- UnixPty state from unix_pty_impl.rs; the OS process and master fd are
external and are modelled as oracle inputs to each operation. -/
structure UnixPty where
  child_exited : Bool
deriving DecidableEq, Repr

/-- UnixPty::new: on OS success (openpty, spawn, AsyncFd wrap) the state
starts with child_exited = false; any OS failure is propagated. -/
def UnixPty.new (_config : PtyConfig) (os : Except PtyError Unit) : Except PtyError UnixPty :=
  match os with
  | .error e => .error e
  | .ok _ => .ok { child_exited := false }

/-- UnixPty poll_read: when child_exited it returns EOF at once; otherwise
it reflects the fd read (a read of 0 marks child_exited and returns EOF,
data returns the count, an error is propagated, not-ready is Pending). -/
def UnixPty.poll_read (p : UnixPty) (fd : FdReadResult) :
    UnixPty × PollResult (Except IoError Nat) :=
  if p.child_exited then (p, .ready (.ok 0))
  else match fd with
    | .data n => (p, .ready (.ok n))
    | .eof => ({ p with child_exited := true }, .ready (.ok 0))
    | .pendingFd => (p, .pending)
    | .ioErr e => (p, .ready (.error e))

/-- UnixPty poll_write: BrokenPipe when child_exited, otherwise the fd
write outcome is returned as-is. -/
def UnixPty.poll_write (p : UnixPty) (fd : PollResult (Except IoError Nat)) :
    UnixPty × PollResult (Except IoError Nat) :=
  if p.child_exited then
    (p, .ready (.error ⟨IoErrorKind.brokenPipe, "PTY process has terminated"⟩))
  else (p, fd)

/-- UnixPty::resize: ProcessTerminated when child_exited, otherwise the
kernel resize outcome (converted error or success) is returned. -/
def UnixPty.resize (p : UnixPty) (_cols _rows : Nat) (os : Except PtyError Unit) :
    Except PtyError Unit :=
  if p.child_exited then .error PtyError.processTerminated
  else os

/-- UnixPty::is_alive: negation of the child_exited flag. -/
def UnixPty.is_alive (p : UnixPty) : Bool := !p.child_exited

/-- UnixPty::try_wait: once child_exited it returns no status; otherwise
the child poll (oracle: error, still running, or exit code) is consulted,
and an observed exit sets child_exited and reports the status once. -/
def UnixPty.try_wait (p : UnixPty) (child : Except PtyError (Option Int)) :
    UnixPty × Except PtyError (Option ExitStatus) :=
  if p.child_exited then (p, .ok none)
  else match child with
    | .error e => (p, .error e)
    | .ok none => (p, .ok none)
    | .ok (some code) => ({ p with child_exited := true }, .ok (some ⟨code⟩))

/-- UnixPty::kill: success without any OS call when child_exited; otherwise
the OS kill outcome decides (success sets child_exited, an error leaves the
state unchanged and is propagated). -/
def UnixPty.kill (p : UnixPty) (os : Except PtyError Unit) :
    UnixPty × Except PtyError Unit :=
  if p.child_exited then (p, .ok ())
  else match os with
    | .error e => (p, .error e)
    | .ok _ => ({ p with child_exited := true }, .ok ())

/-- Operations on a UnixPty, each carrying its OS oracle input. -/
inductive UnixOp
  | read (fd : FdReadResult)
  | write (fd : PollResult (Except IoError Nat))
  | tryWait (child : Except PtyError (Option Int))
  | kill (os : Except PtyError Unit)
  | resize (cols rows : Nat) (os : Except PtyError Unit)
deriving DecidableEq, Repr

/-- State effect of one UnixPty operation. -/
def UnixPty.applyOp (p : UnixPty) : UnixOp → UnixPty
  | .read fd => (p.poll_read fd).1
  | .write fd => (p.poll_write fd).1
  | .tryWait child => (p.try_wait child).1
  | .kill os => (p.kill os).1
  | .resize _ _ _ => p

/-- State after a sequence of UnixPty operations. -/
def UnixPty.runOps (p : UnixPty) : List UnixOp → UnixPty
  | [] => p
  | op :: ops => (p.applyOp op).runOps ops

/-- Whether a UnixPty operation is one of the three that can clear
liveness: a successful kill, a try_wait that observed an exit code, or a
read that observed end-of-output. -/
def UnixOp.clearsLiveness : UnixOp → Bool
  | .kill (.ok _) => true
  | .tryWait (.ok (some _)) => true
  | .read .eof => true
  | _ => false

/-- Results of a sequence of UnixPty::try_wait calls with the given child
poll outcomes, threading the state. -/
def UnixPty.runTryWaits (p : UnixPty) :
    List (Except PtyError (Option Int)) → List (Except PtyError (Option ExitStatus))
  | [] => []
  | c :: cs =>
    let r := p.try_wait c
    r.2 :: r.1.runTryWaits cs

/-- Whether a try_wait result reports an exit status. -/
def reportsStatus (r : Except PtyError (Option ExitStatus)) : Bool :=
  match r with
  | .ok (some _) => true
  | _ => false

/-- Operations on a MemoryPty. write does not itself change state (its
response is produced by a spawned task, the task operation); read drains
the output buffer. -/
inductive MemOp
  | write (data : String)
  | task (data : String)
  | tryWait
  | kill
  | resize (cols rows : Nat)
  | read (n : Nat)
deriving DecidableEq, Repr

/-- State effect of one MemoryPty operation. -/
def MemoryPty.applyOp (p : MemoryPty) : MemOp → MemoryPty
  | .write _ => p
  | .task d => p.runSpawnedTask d
  | .tryWait => (p.try_wait).1
  | .kill => (p.kill).1
  | .resize c r => (p.resize c r).1
  | .read n => { p with output_buffer := ⟨p.output_buffer.data.drop n⟩ }

/-- State after a sequence of MemoryPty operations. -/
def MemoryPty.runOps (p : MemoryPty) : List MemOp → MemoryPty
  | [] => p
  | op :: ops => (p.applyOp op).runOps ops

/-- Whether an input contains a line whose trim is "exit" (the line that
makes MemoryPty::process_input clear the liveness flag). -/
def hasExitLine (input : String) : Bool :=
  (rustLines input).any (fun l => strTrim l = "exit")

/-- Whether a MemoryPty operation can clear liveness: a kill, or the
spawned task of a write whose input contains an "exit" line. -/
def MemOp.clearsLiveness : MemOp → Bool
  | .kill => true
  | .task d => hasExitLine d
  | _ => false

/-- ShellConfig from config.rs: command list, optional working directory,
environment map (modelled as an association list). -/
structure ShellConfig where
  command : List String
  working_directory : Option String
  environment : List (String × String)
deriving DecidableEq, Repr

/-- TerminalConfig fields consumed by create_pty_from_config: default
shell type, default size (columns, rows), and the shell map (modelled as
an association list keyed by shell type). -/
structure TerminalConfig where
  default_shell_type : String
  default_columns : Nat
  default_rows : Nat
  shells : List (String × ShellConfig)
deriving DecidableEq, Repr

/-- HashMap::get on the shells map. -/
def TerminalConfig.getShell (app : TerminalConfig) (key : String) : Option ShellConfig :=
  (app.shells.find? (fun kv => kv.1 = key)).map Prod.snd

/-- Shell-configuration resolution in create_pty_from_config: the default
shell type is looked up; if absent the "bash" entry is used; if that is
also absent the code panics (modelled as none). -/
def resolveShellConfig (app : TerminalConfig) : Option ShellConfig :=
  match app.getShell app.default_shell_type with
  | some c => some c
  | none => app.getShell "bash"

/-- PtyConfig built by create_pty_from_config from the resolved shell
configuration: command is the space-joined command list, args is the
command list minus its first element, size comes from default_size, env
and cwd from the shell configuration (none on panic). -/
def buildPtyConfig (app : TerminalConfig) : Option PtyConfig :=
  (resolveShellConfig app).map fun sc =>
    { command := " ".intercalate sc.command
      args := sc.command.drop 1
      cols := app.default_columns
      rows := app.default_rows
      env := sc.environment
      cwd := sc.working_directory }

/-- Child-process command as assembled by UnixPty::new via CommandBuilder:
program from config.command, then each config.args appended, each env pair
set, and the cwd when present. -/
structure CommandSpec where
  program : String
  args : List String
  env : List (String × String)
  cwd : Option String
deriving DecidableEq, Repr

/-- CommandBuilder assembly in UnixPty::new (lines 27-46). -/
def buildCommand (config : PtyConfig) : CommandSpec :=
  { program := config.command
    args := config.args
    env := config.env
    cwd := config.cwd }

/-- Command spawned for an application configuration: create_pty_from_config
feeding the native backend (none when shell resolution panics). -/
def spawnedCommand (app : TerminalConfig) : Option CommandSpec :=
  (buildPtyConfig app).map buildCommand

/-- Default bash shell configuration shipped in config.rs (command
["bash", "-l"]). -/
def defaultBashShell : ShellConfig :=
  { command := ["bash", "-l"]
    working_directory := none
    environment := [("TERM", "xterm-256color"), ("COLORTERM", "truecolor")] }

/-- Actions performed by handle_terminal_session, recorded as a trace.
closeConn and killPty carry whether the underlying call succeeded (the
handler logs and ignores the outcome either way). -/
inductive HAction
  | addSession
  | sendText (s : String)
  | sendBinary
  | writePty (data : String)
  | closeConn (ok : Bool)
  | killPty (ok : Bool)
  | removeSession
deriving DecidableEq, Repr

/-- One resolved iteration of the select! race in the bridging loop:
either a connection receive() outcome or a PTY read outcome, each carrying
the outcome of the follow-up send/write the handler performs for it. -/
inductive LoopEvent
  | recvText (data : String) (writeOk : Bool)
  | recvBinary (writeOk : Bool)
  | recvPing (pongOk : Bool)
  | recvPong
  | recvClose
  | recvErr
  | recvNone
  | ptyText (text : String) (sendOk : Bool)
  | ptyBinary (sendOk : Bool)
  | ptyEof
  | ptyReadErr
deriving DecidableEq, Repr

/-- Actions emitted for one loop event, and whether the loop breaks on it
(session_handler.rs lines 45-138). -/
def stepEvent : LoopEvent → List HAction × Bool
  | .recvText d writeOk => ([.writePty d], !writeOk)
  | .recvBinary writeOk => ([.writePty ""], !writeOk)
  | .recvPing pongOk => ([.sendText "Pong"], !pongOk)
  | .recvPong => ([], false)
  | .recvClose => ([], true)
  | .recvErr => ([], true)
  | .recvNone => ([], true)
  | .ptyText t sendOk => ([.sendText t], !sendOk)
  | .ptyBinary sendOk => ([.sendBinary], !sendOk)
  | .ptyEof => ([], true)
  | .ptyReadErr => ([], true)

/-- The bridging loop: processes events until one breaks; returns the
emitted actions and whether the loop exited. -/
def runLoop : List LoopEvent → List HAction × Bool
  | [] => ([], false)
  | e :: rest =>
    let s := stepEvent e
    if s.2 then (s.1, true)
    else
      let r := runLoop rest
      (s.1 ++ r.1, r.2)

/-- Cleanup block at the end of handle_terminal_session (lines 140-156):
close the connection, kill the PTY, remove the session — each performed
unconditionally, with close/kill outcomes logged and ignored. -/
def cleanupActions (closeOk killOk : Bool) : List HAction :=
  [.closeConn closeOk, .killPty killOk, .removeSession]

/-- handle_terminal_session as a trace function: add the session; on PTY
creation failure send the error text, close, and remove the session; else
run the bridging loop and, when it exits, run the cleanup block. The Bool
result is whether the session ended (the loop is still running when the
supplied events are exhausted without a break). -/
def handle_terminal_session (ptyOk : Bool) (errMsg : String) (closeOk killOk : Bool)
    (events : List LoopEvent) : List HAction × Bool :=
  if !ptyOk then
    ([.addSession, .sendText ("Error: Failed to create terminal session: " ++ errMsg),
      .closeConn closeOk, .removeSession], true)
  else
    let r := runLoop events
    if r.2 then
      (.addSession :: r.1 ++ cleanupActions closeOk killOk, true)
    else
      (.addSession :: r.1, false)

/-- Whether an action is the registry removal. -/
def isRemoveSession : HAction → Bool
  | .removeSession => true
  | _ => false

/-- Action trace of handle_terminal_session (first component). -/
def sessionTrace (ptyOk : Bool) (errMsg : String) (closeOk killOk : Bool)
    (events : List LoopEvent) : List HAction :=
  (handle_terminal_session ptyOk errMsg closeOk killOk events).1

/-- Concrete PtyConfig used as a test fixture: bash, 80x24, cwd /tmp. -/
def sampleConfig : PtyConfig :=
  { command := "bash", args := [], cols := 80, rows := 24, env := [], cwd := some "/tmp" }

/-- Memory backend instance that has been created and then killed. -/
def deadMemPty : MemoryPty := ((MemoryPty.new sampleConfig).kill).1

/-- Application configuration whose default shell type has no entry but
whose map contains the shipped "bash" entry. -/
def bashOnlyConfig : TerminalConfig :=
  { default_shell_type := "zsh"
    default_columns := 80
    default_rows := 24
    shells := [("bash", defaultBashShell)] }

/-- Application configuration whose default shell type has no entry and
whose map has no "bash" entry either. -/
def noBashConfig : TerminalConfig :=
  { default_shell_type := "zsh"
    default_columns := 80
    default_rows := 24
    shells := [] }

/-- Application configuration matching the shipped defaults on unix:
default shell "bash" with command ["bash", "-l"]. -/
def defaultAppConfig : TerminalConfig :=
  { default_shell_type := "bash"
    default_columns := 80
    default_rows := 24
    shells := [("bash", defaultBashShell)] }

/-! Helper lemmas shared by the claim theorems. -/

/-- Second component of processLineResp is true exactly on "exit" lines. -/
theorem processLineResp_snd (cwd : Option String) (l : String) :
    (processLineResp cwd l).2 = (strTrim l = "exit" : Bool) := by
  dsimp only [processLineResp]
  split_ifs with h1 h2 h3 h4 h5 h6 <;> simp_all
  · rcases h1 with h | h <;> simp [h]
  · rcases h2 with h | h <;> simp [h]

/-- Second component of processLines is whether some line trims to "exit". -/
theorem processLines_snd (cwd : Option String) (ls : List String) :
    (processLines cwd ls).2 = ls.any (fun l => strTrim l = "exit") := by
  induction ls with
  | nil => rfl
  | cons l ls ih => simp [processLines, processLineResp_snd, ih]

/-- Second component of process_input is hasExitLine of the input. -/
theorem process_input_snd (p : MemoryPty) (d : String) :
    (p.process_input d).2 = hasExitLine d := by
  simp [MemoryPty.process_input, hasExitLine, processLines_snd]

/-- A MemoryPty operation that is not a kill and not the task of an input
with an "exit" line preserves the liveness flag. -/
theorem mem_applyOp_alive (p : MemoryPty) (op : MemOp)
    (h : op.clearsLiveness = false) : (p.applyOp op).alive = p.alive := by
  cases op with
  | write d => rfl
  | task d =>
    simp only [MemOp.clearsLiveness] at h
    simp [MemoryPty.applyOp, MemoryPty.runSpawnedTask, process_input_snd, h]
  | tryWait => cases hp : p.alive <;> simp [MemoryPty.applyOp, MemoryPty.try_wait, hp]
  | kill => simp [MemOp.clearsLiveness] at h
  | resize c r => rfl
  | read n => rfl

/-- A UnixPty operation that is not a successful kill, not a try_wait that
observed an exit, and not a read that observed EOF preserves the
child_exited flag. -/
theorem unix_applyOp_exited (p : UnixPty) (op : UnixOp)
    (h : op.clearsLiveness = false) : (p.applyOp op).child_exited = p.child_exited := by
  cases op with
  | read fd =>
    cases fd <;> cases hp : p.child_exited <;>
      simp_all [UnixPty.applyOp, UnixPty.poll_read, UnixOp.clearsLiveness]
  | write fd => cases hp : p.child_exited <;> simp [UnixPty.applyOp, UnixPty.poll_write, hp]
  | tryWait child =>
    rcases child with e | c
    · cases hp : p.child_exited <;> simp [UnixPty.applyOp, UnixPty.try_wait, hp]
    · rcases c with _ | code <;> cases hp : p.child_exited <;>
        simp_all [UnixPty.applyOp, UnixPty.try_wait, UnixOp.clearsLiveness]
  | kill os =>
    rcases os with e | u <;> cases hp : p.child_exited <;>
      simp_all [UnixPty.applyOp, UnixPty.kill, UnixOp.clearsLiveness]
  | resize c r os => rfl

/-- Once child_exited is set, no try_wait call ever reports a status. -/
theorem runTryWaits_exited (p : UnixPty) (cs : List (Except PtyError (Option Int)))
    (hp : p.child_exited = true) :
    (p.runTryWaits cs).countP reportsStatus = 0 := by
  induction cs with
  | nil => rfl
  | cons c cs ih =>
    simp [UnixPty.runTryWaits, UnixPty.try_wait, hp, reportsStatus, List.countP_cons, ih]

/-- A MemoryPty operation never changes the cwd field. -/
theorem mem_applyOp_cwd (p : MemoryPty) (op : MemOp) : (p.applyOp op).cwd = p.cwd := by
  cases op with
  | tryWait => cases hp : p.alive <;> simp [MemoryPty.applyOp, MemoryPty.try_wait, hp]
  | kill => rfl
  | write d => rfl
  | task d => rfl
  | resize c r => rfl
  | read n => rfl

/-- The actions emitted for one loop event never include the registry
removal. -/
theorem stepEvent_no_remove (e : LoopEvent) :
    (stepEvent e).1.countP isRemoveSession = 0 := by
  cases e <;> rfl

/-- The bridging loop itself never removes the session from the registry. -/
theorem runLoop_no_remove (events : List LoopEvent) :
    (runLoop events).1.countP isRemoveSession = 0 := by
  induction events with
  | nil => rfl
  | cons e rest ih =>
    by_cases hb : (stepEvent e).2 = true <;>
      simp [runLoop, hb, List.countP_append, stepEvent_no_remove, ih]

/-- Appending one event to a run that has not broken processes that event
last: the actions extend and the break flag is that event's. -/
theorem runLoop_append_last (events : List LoopEvent) (e : LoopEvent)
    (h : (runLoop events).2 = false) :
    runLoop (events ++ [e]) = ((runLoop events).1 ++ (stepEvent e).1, (stepEvent e).2) := by
  induction events with
  | nil =>
    by_cases hb : (stepEvent e).2 = true <;> simp [runLoop, hb]
  | cons f rest ih =>
    by_cases hb : (stepEvent f).2 = true
    · simp [runLoop, hb] at h
    · have h' : (runLoop rest).2 = false := by
        simp [runLoop, hb] at h
        exact h
      simp [runLoop, hb, ih h', List.append_assoc]

/-! Claim theorems. -/

/-- C6: evaluation of the simulated backend's interpreter at the failing
inputs. "echo hello" does not echo "hello" (the "echo" match arm requires
the trimmed line to be exactly "echo", so "echo hello" falls through to
"command not found"), and "cd" does not print the working directory (the
"cd " pattern carries a trailing space a trimmed line can never have).
The surrounding behaviors the claim lists do hold: "pwd" yields the
configured cwd, "exit" flips liveness, empty lines yield nothing, and
unrecognized non-empty lines yield "command not found". -/
theorem C6_process_input_eval :
    ((MemoryPty.new sampleConfig).process_input "echo hello\n").1
        = "Command not found: echo hello\r\n" ∧
    ((MemoryPty.new sampleConfig).process_input "cd\n").1
        = "Command not found: cd\r\n" ∧
    ((MemoryPty.new sampleConfig).process_input "pwd\n").1 = "/tmp\r\n" ∧
    ((MemoryPty.new sampleConfig).process_input "exit\n")
        = ("Exiting Memory PTY...\r\n", true) ∧
    ((MemoryPty.new sampleConfig).process_input "\n").1 = "" ∧
    ((MemoryPty.new sampleConfig).process_input "frobnicate\n").1
        = "Command not found: frobnicate\r\n" := by
  decide

/-- C7: evaluation of the PTY construction path at the shipped default
configuration (bash shell with command list ["bash", "-l"]). The spawned
program is the space-joined string "bash -l" rather than "bash", and the
"-l" element appears both inside the program string and again in the
argument list, so the child is not spawned with program c0 and arguments
[c1, ..., cn] each exactly once. -/
theorem C7_spawned_command_eval :
    spawnedCommand defaultAppConfig
      = some
          { program := "bash -l"
            args := ["-l"]
            env := [("TERM", "xterm-256color"), ("COLORTERM", "truecolor")]
            cwd := none } := by
  decide

/-- C8 counterexample: with default shell type "zsh" absent from the shell
map and the shipped "bash" entry present, PTY construction does not fail
with a configuration error; it silently resolves the "bash" entry and
proceeds to build a PtyConfig. -/
theorem C8_counterexample :
    bashOnlyConfig.getShell bashOnlyConfig.default_shell_type = none ∧
    buildPtyConfig bashOnlyConfig
      = some
          { command := "bash -l"
            args := ["-l"]
            cols := 80
            rows := 24
            env := [("TERM", "xterm-256color"), ("COLORTERM", "truecolor")]
            cwd := none } := by
  decide

/-- C8 amended: when the configured default shell type has no entry in the
shell map, create_pty_from_config does not fail with a configuration
error; it falls back to the "bash" entry, and only when that entry is also
absent does construction abort (a panic, modelled as none) — the unknown
shell type is masked by the bash fallback. -/
theorem C8_bash_fallback (app : TerminalConfig)
    (h : app.getShell app.default_shell_type = none) :
    resolveShellConfig app = app.getShell "bash" ∧
    (app.getShell "bash" = none → buildPtyConfig app = none) := by
  constructor
  · unfold resolveShellConfig
    rw [h]
  · intro hb
    unfold buildPtyConfig resolveShellConfig
    rw [h, hb]
    rfl

/-- C8 witness: the fallback theorem applied to the concrete configuration
lacking both the default shell type and a "bash" entry. -/
theorem C8_bash_fallback_witness :
    resolveShellConfig noBashConfig = noBashConfig.getShell "bash" ∧
    (noBashConfig.getShell "bash" = none → buildPtyConfig noBashConfig = none) :=
  C8_bash_fallback noBashConfig (by decide)

/-- C2 counterexample: on the simulated backend, liveness flips to false
without kill() ever being called and without try_wait() ever being called:
a freshly created MemoryPty is alive, yet after a write of "exit" and its
spawned processing task (neither of which is a kill or a try_wait)
is_alive() is false. -/
theorem C2_counterexample :
    (MemoryPty.new sampleConfig).is_alive = true ∧
    ((MemoryPty.new sampleConfig).runOps [.write "exit\n", .task "exit\n"]).is_alive = false ∧
    (∀ op ∈ [MemOp.write "exit\n", MemOp.task "exit\n"],
        op ≠ MemOp.kill ∧ op ≠ MemOp.tryWait) := by
  refine ⟨by decide, by decide, ?_⟩
  intro op hop
  fin_cases hop <;> exact ⟨by decide, by decide⟩

/-- C2 amended: for every backend, is_alive() is true immediately after
successful creation, and over any sequence of operations it becomes false
only through an operation that clears liveness: kill(), a try_wait() that
observed process exit, a native read that observed end-of-output, or the
simulated backend processing an input containing an "exit" line. -/
theorem C2_liveness_sources :
    (∀ cfg : PtyConfig, (MemoryPty.new cfg).is_alive = true) ∧
    (∀ (cfg : PtyConfig) (os : Except PtyError Unit) (p : UnixPty),
        UnixPty.new cfg os = .ok p → p.is_alive = true) ∧
    (∀ (cfg : PtyConfig) (ops : List MemOp),
        ((MemoryPty.new cfg).runOps ops).is_alive = false →
        ∃ op ∈ ops, op.clearsLiveness = true) ∧
    (∀ (p : UnixPty) (ops : List UnixOp),
        p.is_alive = true → (p.runOps ops).is_alive = false →
        ∃ op ∈ ops, op.clearsLiveness = true) := by
  refine ⟨fun cfg => rfl, ?_, ?_, ?_⟩
  · intro cfg os p h
    cases os with
    | error e => simp [UnixPty.new] at h
    | ok u =>
      simp [UnixPty.new] at h
      simp [← h, UnixPty.is_alive]
  · intro cfg ops
    have key : ∀ (q : MemoryPty) (ops : List MemOp), q.alive = true →
        (q.runOps ops).is_alive = false → ∃ op ∈ ops, op.clearsLiveness = true := by
      intro q ops
      induction ops generalizing q with
      | nil => intro hq h; simp [MemoryPty.runOps, MemoryPty.is_alive, hq] at h
      | cons op rest ih =>
        intro hq h
        by_cases hc : op.clearsLiveness = true
        · exact ⟨op, List.mem_cons_self op rest, hc⟩
        · have hpres := mem_applyOp_alive q op (by simpa using hc)
          have h' : ((q.applyOp op).runOps rest).is_alive = false := h
          obtain ⟨o, ho, hco⟩ := ih (q.applyOp op) (by rw [hpres]; exact hq) h'
          exact ⟨o, List.mem_cons_of_mem op ho, hco⟩
    exact key (MemoryPty.new cfg) ops rfl
  · intro p ops
    have key : ∀ (q : UnixPty) (ops : List UnixOp), q.is_alive = true →
        (q.runOps ops).is_alive = false → ∃ op ∈ ops, op.clearsLiveness = true := by
      intro q ops
      induction ops generalizing q with
      | nil => intro hq h; simp [UnixPty.runOps, hq] at h
      | cons op rest ih =>
        intro hq h
        by_cases hc : op.clearsLiveness = true
        · exact ⟨op, List.mem_cons_self op rest, hc⟩
        · have hpres := unix_applyOp_exited q op (by simpa using hc)
          have hq' : (q.applyOp op).is_alive = true := by
            simp [UnixPty.is_alive] at hq ⊢
            rw [hpres]
            exact hq
          obtain ⟨o, ho, hco⟩ := ih (q.applyOp op) hq' h
          exact ⟨o, List.mem_cons_of_mem op ho, hco⟩
    exact key p ops

/-- C2 witness: the liveness-source theorem applied at concrete inputs —
the sample configuration, a successful native creation, a memory run ending
in kill, and a native run ending in an EOF read. -/
theorem C2_liveness_sources_witness :
    (MemoryPty.new sampleConfig).is_alive = true ∧
    ({ child_exited := false } : UnixPty).is_alive = true ∧
    (∃ op ∈ [MemOp.kill], op.clearsLiveness = true) ∧
    (∃ op ∈ [UnixOp.read FdReadResult.eof], op.clearsLiveness = true) :=
  ⟨C2_liveness_sources.1 sampleConfig,
   C2_liveness_sources.2.1 sampleConfig (.ok ()) { child_exited := false } rfl,
   C2_liveness_sources.2.2.1 sampleConfig [MemOp.kill] (by decide),
   C2_liveness_sources.2.2.2 { child_exited := false } [UnixOp.read FdReadResult.eof]
     (by decide) (by decide)⟩

/-- C3 counterexample: on the simulated backend the exit status is not
returned at most once. On a killed MemoryPty, the first try_wait() call
reports a status and the immediately following try_wait() call on the
resulting state reports the very same status again instead of "still
running: no". -/
theorem C3_counterexample :
    ((deadMemPty.try_wait).2 = .ok (some ExitStatus.default)) ∧
    (((deadMemPty.try_wait).1.try_wait).2 = .ok (some ExitStatus.default)) := by
  decide

/-- C3 amended: the native backend returns the exit status at most once —
over any sequence of try_wait() calls at most one reports a status, and
once one does, is_alive() is false and every later call returns no status.
The simulated backend instead re-reports a default status on every
try_wait() call made after liveness became false. -/
theorem C3_try_wait_once :
    (∀ (p : UnixPty) (cs : List (Except PtyError (Option Int))),
        (p.runTryWaits cs).countP reportsStatus ≤ 1) ∧
    (∀ (p : UnixPty) (c c' : Except PtyError (Option Int)),
        reportsStatus (p.try_wait c).2 = true →
        ((p.try_wait c).1.is_alive = false ∧ ((p.try_wait c).1.try_wait c').2 = .ok none)) ∧
    (∀ p : MemoryPty, p.is_alive = false →
        (p.try_wait).2 = .ok (some ExitStatus.default) ∧ (p.try_wait).1 = p) := by
  refine ⟨?_, ?_, ?_⟩
  · intro p cs
    induction cs generalizing p with
    | nil => simp [UnixPty.runTryWaits]
    | cons c cs ih =>
      by_cases hp : p.child_exited = true
      · rw [runTryWaits_exited p (c :: cs) hp]
        exact Nat.zero_le 1
      · have hp' : p.child_exited = false := by simpa using hp
        rcases c with e | cv
        · simpa [UnixPty.runTryWaits, UnixPty.try_wait, hp', reportsStatus,
            List.countP_cons] using ih p
        · rcases cv with _ | code
          · simpa [UnixPty.runTryWaits, UnixPty.try_wait, hp', reportsStatus,
              List.countP_cons] using ih p
          · have h0 := runTryWaits_exited { child_exited := true } cs rfl
            simp [UnixPty.runTryWaits, UnixPty.try_wait, hp', reportsStatus,
              List.countP_cons, h0]
  · intro p c c' h
    by_cases hp : p.child_exited = true
    · simp [UnixPty.try_wait, hp, reportsStatus] at h
    · have hp' : p.child_exited = false := by simpa using hp
      rcases c with e | cv
      · simp [UnixPty.try_wait, hp', reportsStatus] at h
      · rcases cv with _ | code
        · simp [UnixPty.try_wait, hp', reportsStatus] at h
        · simp [UnixPty.try_wait, hp', UnixPty.is_alive]
  · intro p hp
    have hp' : p.alive = false := hp
    simp [MemoryPty.try_wait, hp']

/-- C3 witness: the try_wait theorem applied at concrete inputs — a live
native PTY polled twice with an exit report available, and the killed
memory PTY. -/
theorem C3_try_wait_once_witness :
    (({ child_exited := false } : UnixPty).runTryWaits
        [.ok (some 0), .ok (some 0)]).countP reportsStatus ≤ 1 ∧
    ((({ child_exited := false } : UnixPty).try_wait (.ok (some 0))).1.is_alive = false ∧
      ((({ child_exited := false } : UnixPty).try_wait (.ok (some 0))).1.try_wait
          (.ok (some 1))).2 = .ok none) ∧
    ((deadMemPty.try_wait).2 = .ok (some ExitStatus.default) ∧
      (deadMemPty.try_wait).1 = deadMemPty) :=
  ⟨C3_try_wait_once.1 { child_exited := false } [.ok (some 0), .ok (some 0)],
   C3_try_wait_once.2.1 { child_exited := false } (.ok (some 0)) (.ok (some 1)) (by decide),
   C3_try_wait_once.2.2 deadMemPty (by decide)⟩

/-- C4: for every backend, a write after kill() fails with a
broken-pipe-class error: on the simulated backend after kill (and likewise
after its spawned task processed an input containing an "exit" line), and
on the native backend after any kill() call that returned success. -/
theorem C4_write_after_kill :
    (∀ (p : MemoryPty) (data : String),
        ((p.kill).1).poll_write data
          = .error ⟨IoErrorKind.brokenPipe, "PTY is not alive"⟩) ∧
    (∀ (p : MemoryPty) (input data : String), hasExitLine input = true →
        (p.runSpawnedTask input).poll_write data
          = .error ⟨IoErrorKind.brokenPipe, "PTY is not alive"⟩) ∧
    (∀ (p : UnixPty) (os : Except PtyError Unit) (fd : PollResult (Except IoError Nat)),
        (p.kill os).2 = .ok () →
        ((p.kill os).1.poll_write fd).2
          = .ready (.error ⟨IoErrorKind.brokenPipe, "PTY process has terminated"⟩)) := by
  refine ⟨?_, ?_, ?_⟩
  · intro p data
    simp [MemoryPty.kill, MemoryPty.poll_write]
  · intro p input data h
    simp [MemoryPty.runSpawnedTask, MemoryPty.poll_write, process_input_snd, h]
  · intro p os fd h
    by_cases hp : p.child_exited = true
    · simp [UnixPty.kill, UnixPty.poll_write, hp]
    · have hp' : p.child_exited = false := by simpa using hp
      rcases os with e | u
      · simp [UnixPty.kill, hp'] at h
      · simp [UnixPty.kill, UnixPty.poll_write, hp']

/-- C4 witness: the theorem applied at concrete inputs — the sample memory
PTY killed and written to, the same PTY after processing "exit", and a
live native PTY killed successfully and then written to. -/
theorem C4_write_after_kill_witness :
    (((MemoryPty.new sampleConfig).kill).1.poll_write "ls\n"
        = .error ⟨IoErrorKind.brokenPipe, "PTY is not alive"⟩) ∧
    (((MemoryPty.new sampleConfig).runSpawnedTask "exit\n").poll_write "ls\n"
        = .error ⟨IoErrorKind.brokenPipe, "PTY is not alive"⟩) ∧
    (((({ child_exited := false } : UnixPty).kill (.ok ())).1.poll_write
          (.ready (.ok 2))).2
        = .ready (.error ⟨IoErrorKind.brokenPipe, "PTY process has terminated"⟩)) :=
  ⟨C4_write_after_kill.1 (MemoryPty.new sampleConfig) "ls\n",
   C4_write_after_kill.2.1 (MemoryPty.new sampleConfig) "exit\n" "ls\n" (by decide),
   C4_write_after_kill.2.2 { child_exited := false } (.ok ()) (.ready (.ok 2)) (by decide)⟩

/-- C5 counterexample: resizing a dead simulated PTY silently succeeds.
The killed MemoryPty is not alive, yet resize(120, 40) returns Ok rather
than ProcessTerminated or ResizeFailed. -/
theorem C5_counterexample :
    deadMemPty.is_alive = false ∧ (deadMemPty.resize 120 40).2 = .ok () := by
  decide

/-- C5 amended: on the native backend, resize on a PTY whose liveness is
false returns ProcessTerminated; the simulated backend's resize is a no-op
that returns success regardless of liveness. -/
theorem C5_resize_dead :
    (∀ (p : UnixPty) (cols rows : Nat) (os : Except PtyError Unit),
        p.is_alive = false →
        p.resize cols rows os = .error PtyError.processTerminated) ∧
    (∀ (p : MemoryPty) (cols rows : Nat), p.resize cols rows = (p, .ok ())) := by
  refine ⟨?_, fun p cols rows => rfl⟩
  intro p cols rows os h
  have hp : p.child_exited = true := by
    simpa [UnixPty.is_alive] using h
  simp [UnixPty.resize, hp]

/-- C5 witness: the resize theorem applied at concrete inputs — an exited
native PTY resized to 120x40, and the killed memory PTY. -/
theorem C5_resize_dead_witness :
    ({ child_exited := true } : UnixPty).resize 120 40 (.ok ())
        = .error PtyError.processTerminated ∧
    deadMemPty.resize 120 40 = (deadMemPty, .ok ()) :=
  ⟨C5_resize_dead.1 { child_exited := true } 120 40 (.ok ()) (by decide),
   C5_resize_dead.2 deadMemPty 120 40⟩

/-- C9: kill() is idempotent on every backend. On the native backend, a
kill() on a PTY whose liveness is already false returns success without
touching the process, and after any successful kill() a further kill()
returns success with liveness still false; on the simulated backend kill()
always succeeds and a second kill() also succeeds with liveness false. -/
theorem C9_kill_idempotent :
    (∀ (p : UnixPty) (os : Except PtyError Unit),
        p.is_alive = false → p.kill os = (p, .ok ())) ∧
    (∀ (p : UnixPty) (os os' : Except PtyError Unit),
        (p.kill os).2 = .ok () →
        ((p.kill os).1.kill os' = ((p.kill os).1, .ok ()) ∧
          ((p.kill os).1).is_alive = false)) ∧
    (∀ p : MemoryPty,
        ((p.kill).1.kill).2 = .ok () ∧ ((p.kill).1.kill).1.is_alive = false) := by
  refine ⟨?_, ?_, ?_⟩
  · intro p os h
    have hp : p.child_exited = true := by
      simpa [UnixPty.is_alive] using h
    simp [UnixPty.kill, hp]
  · intro p os os' h
    by_cases hp : p.child_exited = true
    · simp [UnixPty.kill, UnixPty.is_alive, hp]
    · have hp' : p.child_exited = false := by simpa using hp
      rcases os with e | u
      · simp [UnixPty.kill, hp'] at h
      · simp [UnixPty.kill, UnixPty.is_alive, hp']
  · intro p
    simp [MemoryPty.kill, MemoryPty.is_alive]

/-- C9 witness: the idempotence theorem applied at concrete inputs — an
exited native PTY, a live native PTY killed twice, and the sample memory
PTY killed twice. -/
theorem C9_kill_idempotent_witness :
    ({ child_exited := true } : UnixPty).kill (.ok ())
        = ({ child_exited := true }, .ok ()) ∧
    ((({ child_exited := false } : UnixPty).kill (.ok ())).1.kill (.ok ())
          = ((({ child_exited := false } : UnixPty).kill (.ok ())).1, .ok ()) ∧
      ((({ child_exited := false } : UnixPty).kill (.ok ())).1).is_alive = false) ∧
    ((((MemoryPty.new sampleConfig).kill).1.kill).2 = .ok () ∧
      (((MemoryPty.new sampleConfig).kill).1.kill).1.is_alive = false) :=
  ⟨C9_kill_idempotent.1 { child_exited := true } (.ok ()) (by decide),
   C9_kill_idempotent.2.1 { child_exited := false } (.ok ()) (.ok ()) (by decide),
   C9_kill_idempotent.2.2 (MemoryPty.new sampleConfig)⟩

/-- C1: on every exit of the bridging loop (inbound close, end-of-stream,
connection error, PTY write failure, PTY read error, PTY end-of-output —
every event that breaks the loop), the handler's trace contains all three
cleanup actions — close the connection, kill the PTY, remove the session —
for every combination of close/kill failure, and the session removal
appears in the whole trace exactly once. -/
theorem C1_cleanup_on_loop_exit (events : List LoopEvent) (errMsg : String)
    (closeOk killOk : Bool) (h : (runLoop events).2 = true) :
    HAction.closeConn closeOk ∈ sessionTrace true errMsg closeOk killOk events ∧
    HAction.killPty killOk ∈ sessionTrace true errMsg closeOk killOk events ∧
    HAction.removeSession ∈ sessionTrace true errMsg closeOk killOk events ∧
    (sessionTrace true errMsg closeOk killOk events).countP isRemoveSession = 1 := by
  unfold sessionTrace handle_terminal_session
  simp [h, cleanupActions, List.countP_append, List.countP_cons,
    runLoop_no_remove, isRemoveSession]

/-- C1 witness: the cleanup theorem applied to a session whose client sends
an inbound close and whose connection close and PTY kill both fail. -/
theorem C1_cleanup_on_loop_exit_witness :
    HAction.closeConn false ∈ sessionTrace true "" false false [LoopEvent.recvClose] ∧
    HAction.killPty false ∈ sessionTrace true "" false false [LoopEvent.recvClose] ∧
    HAction.removeSession ∈ sessionTrace true "" false false [LoopEvent.recvClose] ∧
    (sessionTrace true "" false false [LoopEvent.recvClose]).countP isRemoveSession = 1 :=
  C1_cleanup_on_loop_exit [LoopEvent.recvClose] "" false false (by decide)

/-- C10: every inbound ping is answered by sending the text "Pong", and a
failed pong send breaks the loop: appending a ping whose acknowledgment
send fails to any run that has not yet broken ends the session, with the
"Pong" send attempt in the trace and full cleanup (connection closed, PTY
killed, session removed exactly once) afterwards. -/
theorem C10_ping_pong (events : List LoopEvent) (errMsg : String)
    (closeOk killOk : Bool) (h : (runLoop events).2 = false) :
    (∀ ok : Bool, stepEvent (.recvPing ok) = ([.sendText "Pong"], !ok)) ∧
    (handle_terminal_session true errMsg closeOk killOk
        (events ++ [.recvPing false])).2 = true ∧
    HAction.sendText "Pong"
        ∈ sessionTrace true errMsg closeOk killOk (events ++ [.recvPing false]) ∧
    HAction.closeConn closeOk
        ∈ sessionTrace true errMsg closeOk killOk (events ++ [.recvPing false]) ∧
    HAction.killPty killOk
        ∈ sessionTrace true errMsg closeOk killOk (events ++ [.recvPing false]) ∧
    HAction.removeSession
        ∈ sessionTrace true errMsg closeOk killOk (events ++ [.recvPing false]) ∧
    (sessionTrace true errMsg closeOk killOk
        (events ++ [.recvPing false])).countP isRemoveSession = 1 := by
  have hrun := runLoop_append_last events (.recvPing false) h
  refine ⟨fun ok => by cases ok <;> rfl, ?_, ?_⟩
  · unfold handle_terminal_session
    simp [hrun, stepEvent]
  · unfold sessionTrace handle_terminal_session
    simp [hrun, stepEvent, cleanupActions, List.countP_append, List.countP_cons,
      runLoop_no_remove, isRemoveSession]

/-- C10 witness: the ping theorem applied to a session that receives one
text message (written to the PTY successfully) and then a ping whose pong
send fails. -/
theorem C10_ping_pong_witness :
    (∀ ok : Bool, stepEvent (.recvPing ok) = ([.sendText "Pong"], !ok)) ∧
    (handle_terminal_session true "" true true
        ([LoopEvent.recvText "ls" true] ++ [.recvPing false])).2 = true ∧
    HAction.sendText "Pong"
        ∈ sessionTrace true "" true true ([LoopEvent.recvText "ls" true] ++ [.recvPing false]) ∧
    HAction.closeConn true
        ∈ sessionTrace true "" true true ([LoopEvent.recvText "ls" true] ++ [.recvPing false]) ∧
    HAction.killPty true
        ∈ sessionTrace true "" true true ([LoopEvent.recvText "ls" true] ++ [.recvPing false]) ∧
    HAction.removeSession
        ∈ sessionTrace true "" true true ([LoopEvent.recvText "ls" true] ++ [.recvPing false]) ∧
    (sessionTrace true "" true true
        ([LoopEvent.recvText "ls" true] ++ [.recvPing false])).countP isRemoveSession = 1 :=
  C10_ping_pong [LoopEvent.recvText "ls" true] "" true true (by decide)
